import Mathlib

/-!
Shallow embedding of the lunar-lander simulation core
(Entity.cpp / Physics.cpp / Game.cpp).

Numeric state (C++ `float`) is modelled with exact rationals `ℚ`; the
claims under examination are about exact equalities and clamping
behaviour, which the float code realises with the same operations.
Real-valued library functions (`sin`, `cos`, the constant `M_PI`) only
occur in the 3D thrust model; they are abstracted as parameters of type
`ℚ → ℚ` / `ℚ` so that every statement holds for all possible values.

Terrain.cpp is not part of the sources; its collision interface
(`CheckCollision2D/3D` writing a collision height and returning a bool,
`IsValidLanding2D/3D` returning a bool, declared in Terrain.h) is
modelled as an abstract oracle structure.
-/

namespace LunarLander

/-- Lander state: the Entity transform plus flight state, from the
`Entity` and `Lander` classes in Entity.cpp.  Default field values are
the member-initialiser values of the `Entity`/`Lander` constructors. -/
structure Lander where
  px : ℚ := 0
  py : ℚ := 0
  pz : ℚ := 0
  rx : ℚ := 0
  ry : ℚ := 0
  rz : ℚ := 0
  vx : ℚ := 0
  vy : ℚ := 0
  vz : ℚ := 0
  ax : ℚ := 0
  ay : ℚ := 0
  az : ℚ := 0
  active : Bool := true
  width : ℚ := 20
  height : ℚ := 30
  depth : ℚ := 20
  mass : ℚ := 10000
  thrustLevel : ℚ := 0
  thrustActive : Bool := false
  fuel : ℚ := 1000
  maxFuel : ℚ := 1000
  fuelConsumptionRate : ℚ := 10
  landed : Bool := false
  crashed : Bool := false

/-- The state produced by the `Lander()` constructor. -/
def Lander.init : Lander := {}

/-- `Entity::SetPosition(x, y, z)`. -/
def Lander.SetPosition (l : Lander) (x y z : ℚ) : Lander :=
  { l with px := x, py := y, pz := z }

/-- The two-argument form `SetPosition(x, y)` used by the 2D code
paths.  Entity.h is not among the sources; the omitted third argument
is modelled as the default value `0` (a C++ default argument must be a
fixed constant, and `0.0f` is the value consistent with every 2D use,
where the z component is always zero). -/
def Lander.SetPosition2 (l : Lander) (x y : ℚ) : Lander :=
  l.SetPosition x y 0

/-- `Entity::SetRotation(x, y, z)`. -/
def Lander.SetRotation (l : Lander) (x y z : ℚ) : Lander :=
  { l with rx := x, ry := y, rz := z }

/-- `Entity::SetActive(active)` (accessor declared in Entity.h). -/
def Lander.SetActive (l : Lander) (a : Bool) : Lander :=
  { l with active := a }

/-- The `while (mRotation[2] >= 360.0f) mRotation[2] -= 360.0f;` loop
of `Lander::RotateLeft`. -/
def normRotDown (r : ℚ) : ℚ :=
  if h : 360 ≤ r then normRotDown (r - 360) else r
termination_by (⌈r / 360⌉).toNat
decreasing_by
  have h1 : (0:ℚ) < r / 360 := div_pos (by linarith) (by norm_num)
  have h2 : (0:ℤ) < ⌈r / 360⌉ := Int.ceil_pos.mpr h1
  have h3 : (r - 360) / 360 = r / 360 - 1 := by ring
  have h4 : ⌈(r - 360) / 360⌉ = ⌈r / 360⌉ - 1 := by
    rw [h3, Int.ceil_sub_one]
  simp only [h4]
  omega

/-- The `while (mRotation[2] < 0.0f) mRotation[2] += 360.0f;` loop of
`Lander::RotateRight`. -/
def normRotUp (r : ℚ) : ℚ :=
  if h : r < 0 then normRotUp (r + 360) else r
termination_by (⌈-r / 360⌉).toNat
decreasing_by
  have h1 : (0:ℚ) < -r / 360 := div_pos (by linarith) (by norm_num)
  have h2 : (0:ℤ) < ⌈-r / 360⌉ := Int.ceil_pos.mpr h1
  have h3 : -(r + 360) / 360 = -r / 360 - 1 := by ring
  have h4 : ⌈-(r + 360) / 360⌉ = ⌈-r / 360⌉ - 1 := by
    rw [h3, Int.ceil_sub_one]
  simp only [h4]
  omega

/-- `Lander::RotateLeft(amount)`. -/
def Lander.RotateLeft (l : Lander) (amount : ℚ) : Lander :=
  { l with rz := normRotDown (l.rz + amount) }

/-- `Lander::RotateRight(amount)`. -/
def Lander.RotateRight (l : Lander) (amount : ℚ) : Lander :=
  { l with rz := normRotUp (l.rz - amount) }

/-- `Lander::Update(deltaTime)`: Euler position integration from the
current velocity, then fuel consumption while thrust is active, with
the fuel clamped at zero and thrust auto-deactivated when the clamped
fuel is ≤ 0. -/
def Lander.Update (l : Lander) (deltaTime : ℚ) : Lander :=
  let l1 := { l with px := l.px + l.vx * deltaTime,
                     py := l.py + l.vy * deltaTime,
                     pz := l.pz + l.vz * deltaTime }
  if l1.thrustActive ∧ 0 < l1.fuel then
    let f1 := l1.fuel - l1.fuelConsumptionRate * l1.thrustLevel * deltaTime
    let f2 := max 0 f1
    if f2 ≤ 0 then
      { l1 with fuel := f2, thrustActive := false }
    else
      { l1 with fuel := f2 }
  else
    l1

/-- `Lander::ApplyThrust(amount)`: with no fuel, thrust is forced off;
otherwise the level is clamped into [0,1] and the active flag is set
iff the clamped level is positive. -/
def Lander.ApplyThrust (l : Lander) (amount : ℚ) : Lander :=
  if l.fuel ≤ 0 then
    { l with thrustActive := false, thrustLevel := 0 }
  else
    let lvl := max 0 (min 1 amount)
    { l with thrustLevel := lvl, thrustActive := decide (0 < lvl) }

/-- `Lander::Reset()`. -/
def Lander.Reset (l : Lander) : Lander :=
  let l1 := l.SetPosition 0 100 0
  let l2 := l1.SetRotation 0 0 0
  { l2 with vx := 0, vy := 0, vz := 0,
            ax := 0, ay := 0, az := 0,
            thrustLevel := 0, thrustActive := false,
            fuel := l2.maxFuel,
            landed := false, crashed := false }

/-- Abstract model of real-valued trigonometry used only by the 3D
thrust branch of `Physics::ApplyThrust` (`sin`, `cos` and `M_PI`).
Every claim proved below holds for all values of these parameters. -/
structure Trig where
  piQ : ℚ
  sinQ : ℚ → ℚ
  cosQ : ℚ → ℚ

/-- Abstract terrain oracle.  Terrain.cpp is not among the sources;
Terrain.h declares `CheckCollision2D/3D(Lander*, float& collisionHeight)`
returning whether a collision occurred and writing the collision
height (modelled as `Option ℚ`), and `IsValidLanding2D/3D(Lander*)`
returning whether the contact qualifies as a safe landing. -/
structure Terrain where
  checkCollision2D : Lander → Option ℚ
  isValidLanding2D : Lander → Bool
  checkCollision3D : Lander → Option ℚ
  isValidLanding3D : Lander → Bool

/-- Physics-system parameters, from the `Physics()` constructor in
Physics.cpp (the unused `mIntegrationMethod` member is omitted; the
registered lander/terrain are passed explicitly). -/
structure Physics where
  gravity : ℚ := 162/100
  airDensity : ℚ := 0
  threeDMode : Bool := false
  timeScale : ℚ := 1

/-- `Physics::ApplyGravity(lander, deltaTime)`: no-op when landed or
crashed, otherwise `velocity[1] += mGravity * deltaTime * 10.31f`. -/
def Physics.ApplyGravity (p : Physics) (l : Lander) (deltaTime : ℚ) : Lander :=
  if l.landed || l.crashed then l
  else { l with vy := l.vy + p.gravity * deltaTime * (1031/100) }

/-- `Physics::ApplyThrust(lander, deltaTime)`: no-op when landed,
crashed or thrust inactive; otherwise applies a force of
`2.5 * gravity * thrustLevel`, purely opposite gravity in 2D, or
decomposed through the rotation angles in 3D (the computed `rotY` is
unused in the source and omitted here). -/
def Physics.ApplyThrust (p : Physics) (tr : Trig) (l : Lander) (deltaTime : ℚ) : Lander :=
  if l.landed || l.crashed || !l.thrustActive then l
  else
    let thrustForce := 5/2 * p.gravity * l.thrustLevel
    if !p.threeDMode then
      { l with vy := l.vy - thrustForce * deltaTime }
    else
      let rotX := l.rx * tr.piQ / 180
      let rotZ := l.rz * tr.piQ / 180
      let thrustX := tr.sinQ rotZ * thrustForce
      let thrustY := tr.cosQ rotZ * thrustForce
      let thrustZ := tr.sinQ rotX * thrustForce
      { l with vx := l.vx - thrustX * deltaTime,
               vy := l.vy - thrustY * deltaTime,
               vz := l.vz - thrustZ * deltaTime }

/-- One component of the drag loop body in `Physics::ApplyDrag`:
`dragForce = 0.5 * density * speed * |speed| * dragCoefficient * area`
with `dragCoefficient = 0.5`, applied only when the speed is nonzero. -/
def dragStep (airDensity area mass deltaTime v : ℚ) : ℚ :=
  let dragForce := 1/2 * airDensity * v * |v| * (1/2) * area
  if v ≠ 0 then v - dragForce * deltaTime / mass else v

/-- `Physics::ApplyDrag(lander, deltaTime)`: no-op when landed, crashed
or the ambient density is ≤ 0; otherwise quadratic drag per velocity
component (components 0,1 in 2D mode, 0,1,2 in 3D mode). -/
def Physics.ApplyDrag (p : Physics) (l : Lander) (deltaTime : ℚ) : Lander :=
  if l.landed || l.crashed || p.airDensity ≤ 0 then l
  else
    let area := l.width * l.height
    let l1 := { l with vx := dragStep p.airDensity area l.mass deltaTime l.vx,
                       vy := dragStep p.airDensity area l.mass deltaTime l.vy }
    if p.threeDMode then
      { l1 with vz := dragStep p.airDensity area l1.mass deltaTime l1.vz }
    else l1

/-- `Physics::CheckCollisions2D()`: returns the updated lander and the
boolean result.  Skipped when already landed or crashed; on collision
the lander is snapped to `collisionHeight - height/2`, then classified
by `IsValidLanding2D` (evaluated on the snapped lander), setting
exactly one of the landed/crashed flags and zeroing `velocity[0..1]`. -/
def Physics.CheckCollisions2D (t : Terrain) (l : Lander) : Lander × Bool :=
  if l.landed || l.crashed then (l, false)
  else
    match t.checkCollision2D l with
    | none => (l, false)
    | some collisionHeight =>
      let l1 := l.SetPosition2 l.px (collisionHeight - l.height / 2)
      if t.isValidLanding2D l1 then
        ({ l1 with landed := true, vx := 0, vy := 0 }, true)
      else
        ({ l1 with crashed := true, vx := 0, vy := 0 }, true)

/-- `Physics::CheckCollisions3D()`: as in 2D but preserving the x and z
position components in the snap and zeroing `velocity[0..2]`. -/
def Physics.CheckCollisions3D (t : Terrain) (l : Lander) : Lander × Bool :=
  if l.landed || l.crashed then (l, false)
  else
    match t.checkCollision3D l with
    | none => (l, false)
    | some collisionHeight =>
      let l1 := l.SetPosition l.px (collisionHeight - l.height / 2) l.pz
      if t.isValidLanding3D l1 then
        ({ l1 with landed := true, vx := 0, vy := 0, vz := 0 }, true)
      else
        ({ l1 with crashed := true, vx := 0, vy := 0, vz := 0 }, true)

/-- `Physics::Update2D(deltaTime)`: forces applied with
`scaledDeltaTime = deltaTime * mTimeScale`, Euler position integration
with the unscaled `deltaTime` (skipped once landed/crashed), then
collision checking. -/
def Physics.Update2D (p : Physics) (tr : Trig) (t : Terrain) (l : Lander)
    (deltaTime : ℚ) : Lander :=
  let scaledDeltaTime := deltaTime * p.timeScale
  let l1 := p.ApplyGravity l scaledDeltaTime
  let l2 := p.ApplyThrust tr l1 scaledDeltaTime
  let l3 := p.ApplyDrag l2 scaledDeltaTime
  let l4 :=
    if !l3.landed && !l3.crashed then
      l3.SetPosition2 (l3.px + l3.vx * deltaTime) (l3.py + l3.vy * deltaTime)
    else l3
  (Physics.CheckCollisions2D t l4).1

/-- `Physics::Update3D(deltaTime)`: forces and Euler integration both
with the raw `deltaTime` (no time scaling), then collision checking. -/
def Physics.Update3D (p : Physics) (tr : Trig) (t : Terrain) (l : Lander)
    (deltaTime : ℚ) : Lander :=
  let l1 := p.ApplyGravity l deltaTime
  let l2 := p.ApplyThrust tr l1 deltaTime
  let l3 := p.ApplyDrag l2 deltaTime
  let l4 :=
    if !l3.landed && !l3.crashed then
      l3.SetPosition (l3.px + l3.vx * deltaTime) (l3.py + l3.vy * deltaTime)
        (l3.pz + l3.vz * deltaTime)
    else l3
  (Physics.CheckCollisions3D t l4).1

/-- `Physics::Update(deltaTime)`: dispatch on `m3DMode`. -/
def Physics.Update (p : Physics) (tr : Trig) (t : Terrain) (l : Lander)
    (deltaTime : ℚ) : Lander :=
  if p.threeDMode then p.Update3D tr t l deltaTime
  else p.Update2D tr t l deltaTime

/-- The outer game-state enum from Game.h. -/
inductive GameState where
  | READY
  | FLYING
  | LANDED
  | CRASHED
deriving DecidableEq, Repr

/-- Game orchestrator state, from `Game()` in Game.cpp (members that
carry simulation state; renderer/input/terrain objects and the SDL
frame-timing members are external collaborators).  Default values are
the constructor's member initialisers, with the window dimensions set
to the 800×600 values assigned in `Game::Initialize`. -/
structure Game where
  gameState : GameState := .READY
  score : ℚ := 0
  elapsedTime : ℚ := 0
  fuelUsed : ℚ := 0
  windowWidth : ℚ := 800
  windowHeight : ℚ := 600
  threeDMode : Bool := false
  lander : Lander := {}
  physics : Physics := {}

/-- `Game::Reset()`: state to FLYING, score/elapsed/fuel-used zeroed,
lander reset and re-activated, initial position set from the window
dimensions (mode-dependent).  Terrain regeneration touches only the
external terrain object. -/
def Game.Reset (g : Game) : Game :=
  let l1 := g.lander.Reset
  let l2 := l1.SetActive true
  let l3 :=
    if g.threeDMode then
      l2.SetPosition (g.windowWidth / 2) (g.windowHeight / 3) (g.windowWidth / 2)
    else
      l2.SetPosition2 (g.windowWidth / 2) 100
  { g with gameState := .FLYING, score := 0, elapsedTime := 0, fuelUsed := 0,
           lander := l3 }

/-- Input flags read from the `InputHandler` collaborator during one
`Game::ProcessInput` call. -/
structure InputFlags where
  start : Bool := false
  thrust : Bool := false
  rotLeft : Bool := false
  rotRight : Bool := false
  doReset : Bool := false

/-- The thrust-handling block of `Game::ProcessInput` in the FLYING
state, including the fuel-usage tracking that reads the fuel once and
compares the reading with itself. -/
def Game.handleThrustInput (g : Game) (thrustKey : Bool) : Game :=
  if thrustKey then
    let l := g.lander.ApplyThrust 1
    let originalFuel := l.fuel
    let newFuel := originalFuel
    if originalFuel > newFuel then
      { g with lander := l, fuelUsed := g.fuelUsed + (originalFuel - newFuel) }
    else
      { g with lander := l }
  else
    { g with lander := g.lander.ApplyThrust 0 }

/-- `Game::ProcessInput()` (the state-dependent part; quit handling
only clears the external run flag). -/
def Game.ProcessInput (g : Game) (inp : InputFlags) : Game :=
  if g.gameState = .READY then
    if inp.start then { g with gameState := .FLYING } else g
  else if g.gameState = .FLYING then
    let g1 := g.handleThrustInput inp.thrust
    let g2 := if inp.rotLeft then { g1 with lander := g1.lander.RotateLeft 2 } else g1
    let g3 := if inp.rotRight then { g2 with lander := g2.lander.RotateRight 2 } else g2
    g3
  else if g.gameState = .LANDED ∨ g.gameState = .CRASHED then
    if inp.doReset then g.Reset else g
  else g

/-- `Game::Update(deltaTime)`: while FLYING, run the physics update and
the lander update, then react to the landed/crashed flags (score and
state transition) and accumulate elapsed time.  The debug fall-timer
statics and the external terrain/camera updates carry no simulation
state. -/
def Game.Update (g : Game) (tr : Trig) (t : Terrain) (deltaTime : ℚ) : Game :=
  if g.gameState = .FLYING then
    let l1 := g.physics.Update tr t g.lander deltaTime
    let l2 := l1.Update deltaTime
    let g1 :=
      if l2.landed then
        { g with lander := l2, gameState := .LANDED,
                 score := l2.fuel / l2.maxFuel * 1000 }
      else if l2.crashed then
        { g with lander := l2, gameState := .CRASHED, score := 0 }
      else
        { g with lander := l2 }
    { g1 with elapsedTime := g1.elapsedTime + deltaTime }
  else g

/-- `Game::SetDifficulty(difficulty)`: sets the gravity scalar, applies
zero thrust, and resets. -/
def Game.SetDifficulty (g : Game) (grav : ℚ) : Game :=
  let g1 := { g with physics := { g.physics with gravity := grav },
                     lander := g.lander.ApplyThrust 0 }
  g1.Reset

/-- Game states reachable in a session: `Game::Initialize` ends in
`Reset()` on the freshly constructed state, and every later mutation of
the modelled state goes through `ProcessInput`, `Update`, `Reset` (the
R key) or `SetDifficulty` (the 1/2/3 keys). -/
inductive GameReachable : Game → Prop where
  | init : GameReachable (Game.Reset {})
  | processInput {g} (inp : InputFlags) :
      GameReachable g → GameReachable (g.ProcessInput inp)
  | update {g} (tr : Trig) (t : Terrain) (deltaTime : ℚ) :
      GameReachable g → GameReachable (g.Update tr t deltaTime)
  | reset {g} : GameReachable g → GameReachable g.Reset
  | setDifficulty {g} (grav : ℚ) :
      GameReachable g → GameReachable (g.SetDifficulty grav)

/-- Velocity freeze property: once the landed or crashed flag is set,
every velocity component is exactly zero. -/
def VelFrozen (l : Lander) : Prop :=
  (l.landed = true ∨ l.crashed = true) → l.vx = 0 ∧ l.vy = 0 ∧ l.vz = 0

/-- Session invariant for the lander, indexed by the physics mode: the
velocity freeze, plus (in 2D mode, where no code path ever writes the
z velocity) that the z velocity is zero. -/
def LanderInv (mode : Bool) (l : Lander) : Prop :=
  VelFrozen l ∧ (mode = false → l.vz = 0)

/-- Lander states reachable in a session running in a fixed physics
mode: the constructed state, and closure under every operation that
mutates the lander — the entity setters, rotation and thrust input
handlers, `Lander::Reset`, `Lander::Update`, and the physics update of
the session's mode (`Physics::Update` dispatches `Update2D` when
`m3DMode` is false and `Update3D` when it is true). -/
inductive LanderReachable : Bool → Lander → Prop where
  | init (mode : Bool) : LanderReachable mode Lander.init
  | setPosition {mode l} (x y z : ℚ) :
      LanderReachable mode l → LanderReachable mode (l.SetPosition x y z)
  | setActive {mode l} (a : Bool) :
      LanderReachable mode l → LanderReachable mode (l.SetActive a)
  | rotateLeft {mode l} (amount : ℚ) :
      LanderReachable mode l → LanderReachable mode (l.RotateLeft amount)
  | rotateRight {mode l} (amount : ℚ) :
      LanderReachable mode l → LanderReachable mode (l.RotateRight amount)
  | applyThrust {mode l} (amount : ℚ) :
      LanderReachable mode l → LanderReachable mode (l.ApplyThrust amount)
  | reset {mode l} :
      LanderReachable mode l → LanderReachable mode l.Reset
  | landerUpdate {mode l} (deltaTime : ℚ) :
      LanderReachable mode l → LanderReachable mode (l.Update deltaTime)
  | physUpdate2D {l} (p : Physics) (hp : p.threeDMode = false)
      (tr : Trig) (t : Terrain) (deltaTime : ℚ) :
      LanderReachable false l →
      LanderReachable false (p.Update2D tr t l deltaTime)
  | physUpdate3D {l} (p : Physics) (hp : p.threeDMode = true)
      (tr : Trig) (t : Terrain) (deltaTime : ℚ) :
      LanderReachable true l →
      LanderReachable true (p.Update3D tr t l deltaTime)

/-- A physics step with the force-application time step and the
position-integration time step as separate arguments, used to express
which of the two steps receives the time-scale multiplier (2D
collision path). -/
def Physics.stagedStep2D (p : Physics) (tr : Trig) (t : Terrain) (l : Lander)
    (forceDt posDt : ℚ) : Lander :=
  let l1 := p.ApplyGravity l forceDt
  let l2 := p.ApplyThrust tr l1 forceDt
  let l3 := p.ApplyDrag l2 forceDt
  let l4 :=
    if !l3.landed && !l3.crashed then
      l3.SetPosition2 (l3.px + l3.vx * posDt) (l3.py + l3.vy * posDt)
    else l3
  (Physics.CheckCollisions2D t l4).1

/-- As `stagedStep2D` for the 3D collision path. -/
def Physics.stagedStep3D (p : Physics) (tr : Trig) (t : Terrain) (l : Lander)
    (forceDt posDt : ℚ) : Lander :=
  let l1 := p.ApplyGravity l forceDt
  let l2 := p.ApplyThrust tr l1 forceDt
  let l3 := p.ApplyDrag l2 forceDt
  let l4 :=
    if !l3.landed && !l3.crashed then
      l3.SetPosition (l3.px + l3.vx * posDt) (l3.py + l3.vy * posDt)
        (l3.pz + l3.vz * posDt)
    else l3
  (Physics.CheckCollisions3D t l4).1

/-- Trigonometry instance used for concrete evaluations. -/
def trig0 : Trig := ⟨0, fun _ => 0, fun _ => 0⟩

/-- Concrete terrain whose oracle always reports a collision at height
0 and classifies every contact as a valid landing. -/
def padTerrain : Terrain where
  checkCollision2D := fun _ => some 0
  isValidLanding2D := fun _ => true
  checkCollision3D := fun _ => some 0
  isValidLanding3D := fun _ => true

/-- Concrete terrain whose oracle always reports a collision at height
0 and classifies every contact as a crash. -/
def rockTerrain : Terrain where
  checkCollision2D := fun _ => some 0
  isValidLanding2D := fun _ => false
  checkCollision3D := fun _ => some 0
  isValidLanding3D := fun _ => false

/-- Concrete terrain whose oracle never reports a collision. -/
def skyTerrain : Terrain where
  checkCollision2D := fun _ => none
  isValidLanding2D := fun _ => false
  checkCollision3D := fun _ => none
  isValidLanding3D := fun _ => false

/-- A lander whose landed flag is set (and velocity zero), for
concrete evaluations. -/
def landedLander : Lander := { landed := true }

/-- The lander state after one 2D physics step of the constructed
lander over `padTerrain` with a zero time step: the pad collision
fires immediately, so this state has the landed flag set. -/
def padLander : Lander := Physics.Update2D {} trig0 padTerrain Lander.init 0

/-- The game state right after `Game::Initialize` (which ends in
`Reset()` on the freshly constructed state). -/
def gameFly : Game := Game.Reset {}

/-- A game state with junk values in every field that `Game::Reset`
re-initialises, for concrete evaluations. -/
def messyGame : Game :=
  { gameState := .CRASHED, score := 55, elapsedTime := 9, fuelUsed := 7,
    lander := { px := 123, py := -4, pz := 8, rz := 271, vx := 3, vy := -5,
                vz := 2, thrustLevel := 1, thrustActive := true, fuel := 2,
                crashed := true } }

theorem ApplyGravity_skip (p : Physics) (l : Lander) (dt : ℚ)
    (h : l.landed = true ∨ l.crashed = true) : p.ApplyGravity l dt = l := by
  unfold Physics.ApplyGravity
  rcases h with h | h <;> simp [h]

theorem ApplyGravity_fields (p : Physics) (l : Lander) (dt : ℚ) :
    (p.ApplyGravity l dt).landed = l.landed ∧
    (p.ApplyGravity l dt).crashed = l.crashed ∧
    (p.ApplyGravity l dt).vz = l.vz ∧
    (p.ApplyGravity l dt).vx = l.vx ∧
    (p.ApplyGravity l dt).px = l.px ∧
    (p.ApplyGravity l dt).py = l.py ∧
    (p.ApplyGravity l dt).pz = l.pz := by
  unfold Physics.ApplyGravity
  split <;> simp

theorem physApplyThrust_skip (p : Physics) (tr : Trig) (l : Lander) (dt : ℚ)
    (h : l.landed = true ∨ l.crashed = true) : p.ApplyThrust tr l dt = l := by
  unfold Physics.ApplyThrust
  rcases h with h | h <;> simp [h]

theorem physApplyThrust_fields (p : Physics) (tr : Trig) (l : Lander) (dt : ℚ) :
    (p.ApplyThrust tr l dt).landed = l.landed ∧
    (p.ApplyThrust tr l dt).crashed = l.crashed ∧
    (p.ApplyThrust tr l dt).px = l.px ∧
    (p.ApplyThrust tr l dt).py = l.py ∧
    (p.ApplyThrust tr l dt).pz = l.pz := by
  unfold Physics.ApplyThrust
  split
  · simp
  · split <;> simp

theorem physApplyThrust_vz (p : Physics) (tr : Trig) (l : Lander) (dt : ℚ)
    (hp : p.threeDMode = false) : (p.ApplyThrust tr l dt).vz = l.vz := by
  unfold Physics.ApplyThrust
  split
  · rfl
  · simp [hp]

theorem ApplyDrag_skip (p : Physics) (l : Lander) (dt : ℚ)
    (h : l.landed = true ∨ l.crashed = true) : p.ApplyDrag l dt = l := by
  unfold Physics.ApplyDrag
  rcases h with h | h <;> simp [h]

theorem ApplyDrag_fields (p : Physics) (l : Lander) (dt : ℚ) :
    (p.ApplyDrag l dt).landed = l.landed ∧
    (p.ApplyDrag l dt).crashed = l.crashed ∧
    (p.ApplyDrag l dt).px = l.px ∧
    (p.ApplyDrag l dt).py = l.py ∧
    (p.ApplyDrag l dt).pz = l.pz := by
  unfold Physics.ApplyDrag
  split
  · simp
  · split <;> simp

theorem ApplyDrag_vz (p : Physics) (l : Lander) (dt : ℚ)
    (hp : p.threeDMode = false) : (p.ApplyDrag l dt).vz = l.vz := by
  unfold Physics.ApplyDrag
  split
  · rfl
  · simp [hp]

theorem LanderUpdate_fields (l : Lander) (dt : ℚ) :
    (l.Update dt).landed = l.landed ∧
    (l.Update dt).crashed = l.crashed ∧
    (l.Update dt).vx = l.vx ∧
    (l.Update dt).vy = l.vy ∧
    (l.Update dt).vz = l.vz ∧
    (l.Update dt).px = l.px + l.vx * dt ∧
    (l.Update dt).py = l.py + l.vy * dt ∧
    (l.Update dt).pz = l.pz + l.vz * dt := by
  simp only [Lander.Update]
  split_ifs <;> simp

theorem landerApplyThrust_fields (l : Lander) (amount : ℚ) :
    (l.ApplyThrust amount).landed = l.landed ∧
    (l.ApplyThrust amount).crashed = l.crashed ∧
    (l.ApplyThrust amount).vx = l.vx ∧
    (l.ApplyThrust amount).vy = l.vy ∧
    (l.ApplyThrust amount).vz = l.vz := by
  unfold Lander.ApplyThrust
  split <;> simp

theorem CheckCollisions2D_skip (t : Terrain) (l : Lander)
    (h : l.landed = true ∨ l.crashed = true) :
    Physics.CheckCollisions2D t l = (l, false) := by
  unfold Physics.CheckCollisions2D
  rcases h with h | h <;> simp [h]

theorem CheckCollisions3D_skip (t : Terrain) (l : Lander)
    (h : l.landed = true ∨ l.crashed = true) :
    Physics.CheckCollisions3D t l = (l, false) := by
  unfold Physics.CheckCollisions3D
  rcases h with h | h <;> simp [h]

theorem CheckCollisions2D_none (t : Terrain) (l : Lander)
    (hl : l.landed = false) (hc : l.crashed = false)
    (hcol : t.checkCollision2D l = none) :
    Physics.CheckCollisions2D t l = (l, false) := by
  unfold Physics.CheckCollisions2D
  simp [hl, hc, hcol]

theorem CheckCollisions2D_some (t : Terrain) (l : Lander) (ch : ℚ)
    (hl : l.landed = false) (hc : l.crashed = false)
    (hcol : t.checkCollision2D l = some ch) :
    (Physics.CheckCollisions2D t l).1 =
      (if t.isValidLanding2D (l.SetPosition2 l.px (ch - l.height / 2)) then
        { l.SetPosition2 l.px (ch - l.height / 2) with
            landed := true, vx := 0, vy := 0 }
      else
        { l.SetPosition2 l.px (ch - l.height / 2) with
            crashed := true, vx := 0, vy := 0 }) := by
  unfold Physics.CheckCollisions2D
  simp only [hl, hc, Bool.or_false, Bool.false_eq_true, if_false, hcol]
  split_ifs <;> rfl

theorem GameUpdate_lander (g : Game) (tr : Trig) (t : Terrain) (dt : ℚ)
    (hs : g.gameState = .FLYING) :
    (g.Update tr t dt).lander = (g.physics.Update tr t g.lander dt).Update dt := by
  unfold Game.Update
  simp only [hs, if_true]
  split_ifs <;> rfl

theorem Update2D_frozen (p : Physics) (tr : Trig) (t : Terrain) (l : Lander)
    (dt : ℚ) (h : l.landed = true ∨ l.crashed = true) :
    p.Update2D tr t l dt = l := by
  simp only [Physics.Update2D]
  rw [ApplyGravity_skip _ _ _ h, physApplyThrust_skip _ _ _ _ h,
    ApplyDrag_skip _ _ _ h]
  have hskip := CheckCollisions2D_skip t l h
  rcases h with h | h <;> simp [h, hskip]

theorem Update3D_frozen (p : Physics) (tr : Trig) (t : Terrain) (l : Lander)
    (dt : ℚ) (h : l.landed = true ∨ l.crashed = true) :
    p.Update3D tr t l dt = l := by
  simp only [Physics.Update3D]
  rw [ApplyGravity_skip _ _ _ h, physApplyThrust_skip _ _ _ _ h,
    ApplyDrag_skip _ _ _ h]
  have hskip := CheckCollisions3D_skip t l h
  rcases h with h | h <;> simp [h, hskip]

theorem PhysicsUpdate_frozen (p : Physics) (tr : Trig) (t : Terrain) (l : Lander)
    (dt : ℚ) (h : l.landed = true ∨ l.crashed = true) :
    p.Update tr t l dt = l := by
  unfold Physics.Update
  split_ifs
  · exact Update3D_frozen p tr t l dt h
  · exact Update2D_frozen p tr t l dt h

theorem CheckCollisions2D_inv (t : Terrain) (l : Lander)
    (hl : l.landed = false) (hc : l.crashed = false) (hvz : l.vz = 0) :
    LanderInv false (Physics.CheckCollisions2D t l).1 := by
  unfold Physics.CheckCollisions2D
  simp only [hl, hc, Bool.or_false, Bool.false_eq_true, if_false]
  unfold LanderInv VelFrozen
  rcases hcol : t.checkCollision2D l with - | ch
  · dsimp only
    exact ⟨fun hf => absurd hf (by simp [hl, hc]), fun _ => hvz⟩
  · dsimp only
    split_ifs with hv
    · constructor
      · intro _
        refine ⟨rfl, rfl, ?_⟩
        simp [Lander.SetPosition2, Lander.SetPosition, hvz]
      · intro _
        simp [Lander.SetPosition2, Lander.SetPosition, hvz]
    · constructor
      · intro _
        refine ⟨rfl, rfl, ?_⟩
        simp [Lander.SetPosition2, Lander.SetPosition, hvz]
      · intro _
        simp [Lander.SetPosition2, Lander.SetPosition, hvz]

theorem CheckCollisions3D_inv (t : Terrain) (l : Lander)
    (hl : l.landed = false) (hc : l.crashed = false) :
    LanderInv true (Physics.CheckCollisions3D t l).1 := by
  unfold Physics.CheckCollisions3D
  simp only [hl, hc, Bool.or_false, Bool.false_eq_true, if_false]
  unfold LanderInv VelFrozen
  rcases hcol : t.checkCollision3D l with - | ch
  · dsimp only
    exact ⟨fun hf => absurd hf (by simp [hl, hc]), fun hm => absurd hm (by simp)⟩
  · dsimp only
    split_ifs with hv
    · exact ⟨fun _ => ⟨rfl, rfl, rfl⟩, fun hm => absurd hm (by simp)⟩
    · exact ⟨fun _ => ⟨rfl, rfl, rfl⟩, fun hm => absurd hm (by simp)⟩

theorem Update2D_inv (p : Physics) (tr : Trig) (t : Terrain) (l : Lander)
    (dt : ℚ) (hp : p.threeDMode = false) (hInv : LanderInv false l) :
    LanderInv false (p.Update2D tr t l dt) := by
  by_cases hfl : l.landed = true ∨ l.crashed = true
  · rw [Update2D_frozen p tr t l dt hfl]
    exact hInv
  · rw [not_or] at hfl
    obtain ⟨hl', hc'⟩ := hfl
    have hl : l.landed = false := Bool.eq_false_iff.mpr hl'
    have hc : l.crashed = false := Bool.eq_false_iff.mpr hc'
    have hvz : l.vz = 0 := hInv.2 rfl
    simp only [Physics.Update2D]
    obtain ⟨g1, g2, g3, -, -, -, -⟩ :=
      ApplyGravity_fields p l (dt * p.timeScale)
    obtain ⟨t1, t2, -, -, -⟩ :=
      physApplyThrust_fields p tr (p.ApplyGravity l (dt * p.timeScale))
        (dt * p.timeScale)
    have t3 := physApplyThrust_vz p tr (p.ApplyGravity l (dt * p.timeScale))
      (dt * p.timeScale) hp
    obtain ⟨d1, d2, -, -, -⟩ :=
      ApplyDrag_fields p
        (p.ApplyThrust tr (p.ApplyGravity l (dt * p.timeScale))
          (dt * p.timeScale)) (dt * p.timeScale)
    have d3 := ApplyDrag_vz p
      (p.ApplyThrust tr (p.ApplyGravity l (dt * p.timeScale))
        (dt * p.timeScale)) (dt * p.timeScale) hp
    have h3l : (p.ApplyDrag
        (p.ApplyThrust tr (p.ApplyGravity l (dt * p.timeScale))
          (dt * p.timeScale)) (dt * p.timeScale)).landed = false := by
      rw [d1, t1, g1, hl]
    have h3c : (p.ApplyDrag
        (p.ApplyThrust tr (p.ApplyGravity l (dt * p.timeScale))
          (dt * p.timeScale)) (dt * p.timeScale)).crashed = false := by
      rw [d2, t2, g2, hc]
    have h3vz : (p.ApplyDrag
        (p.ApplyThrust tr (p.ApplyGravity l (dt * p.timeScale))
          (dt * p.timeScale)) (dt * p.timeScale)).vz = 0 := by
      rw [d3, t3, g3, hvz]
    simp only [h3l, h3c, Bool.not_false, Bool.and_self, if_true]
    exact CheckCollisions2D_inv t _
      (by simp [Lander.SetPosition2, Lander.SetPosition, h3l])
      (by simp [Lander.SetPosition2, Lander.SetPosition, h3c])
      (by simp [Lander.SetPosition2, Lander.SetPosition, h3vz])

theorem Update3D_inv (p : Physics) (tr : Trig) (t : Terrain) (l : Lander)
    (dt : ℚ) (hInv : LanderInv true l) :
    LanderInv true (p.Update3D tr t l dt) := by
  by_cases hfl : l.landed = true ∨ l.crashed = true
  · rw [Update3D_frozen p tr t l dt hfl]
    exact hInv
  · rw [not_or] at hfl
    obtain ⟨hl', hc'⟩ := hfl
    have hl : l.landed = false := Bool.eq_false_iff.mpr hl'
    have hc : l.crashed = false := Bool.eq_false_iff.mpr hc'
    simp only [Physics.Update3D]
    obtain ⟨g1, g2, -, -, -, -, -⟩ := ApplyGravity_fields p l dt
    obtain ⟨t1, t2, -, -, -⟩ :=
      physApplyThrust_fields p tr (p.ApplyGravity l dt) dt
    obtain ⟨d1, d2, -, -, -⟩ :=
      ApplyDrag_fields p (p.ApplyThrust tr (p.ApplyGravity l dt) dt) dt
    have h3l : (p.ApplyDrag
        (p.ApplyThrust tr (p.ApplyGravity l dt) dt) dt).landed = false := by
      rw [d1, t1, g1, hl]
    have h3c : (p.ApplyDrag
        (p.ApplyThrust tr (p.ApplyGravity l dt) dt) dt).crashed = false := by
      rw [d2, t2, g2, hc]
    simp only [h3l, h3c, Bool.not_false, Bool.and_self, if_true]
    exact CheckCollisions3D_inv t _
      (by simp [Lander.SetPosition, h3l])
      (by simp [Lander.SetPosition, h3c])

theorem reachable_inv (mode : Bool) (l : Lander)
    (hr : LanderReachable mode l) : LanderInv mode l := by
  induction hr with
  | init mode =>
    exact ⟨fun hf => absurd hf (by simp [Lander.init]), fun _ => rfl⟩
  | setPosition x y z hr ih =>
    obtain ⟨ih1, ih2⟩ := ih
    constructor
    · intro hf
      simp only [Lander.SetPosition] at hf ⊢
      exact ih1 hf
    · intro hm
      simp only [Lander.SetPosition]
      exact ih2 hm
  | setActive a hr ih =>
    obtain ⟨ih1, ih2⟩ := ih
    constructor
    · intro hf
      simp only [Lander.SetActive] at hf ⊢
      exact ih1 hf
    · intro hm
      simp only [Lander.SetActive]
      exact ih2 hm
  | rotateLeft amount hr ih =>
    obtain ⟨ih1, ih2⟩ := ih
    constructor
    · intro hf
      simp only [Lander.RotateLeft] at hf ⊢
      exact ih1 hf
    · intro hm
      simp only [Lander.RotateLeft]
      exact ih2 hm
  | rotateRight amount hr ih =>
    obtain ⟨ih1, ih2⟩ := ih
    constructor
    · intro hf
      simp only [Lander.RotateRight] at hf ⊢
      exact ih1 hf
    · intro hm
      simp only [Lander.RotateRight]
      exact ih2 hm
  | applyThrust amount hr ih =>
    obtain ⟨ih1, ih2⟩ := ih
    obtain ⟨a1, a2, a3, a4, a5⟩ := landerApplyThrust_fields _ amount
    constructor
    · intro hf
      rw [a1, a2] at hf
      rw [a3, a4, a5]
      exact ih1 hf
    · intro hm
      rw [a5]
      exact ih2 hm
  | reset hr ih =>
    constructor
    · intro hf
      refine absurd hf ?_
      simp [Lander.Reset, Lander.SetPosition, Lander.SetRotation]
    · intro hm
      simp [Lander.Reset, Lander.SetPosition, Lander.SetRotation]
  | landerUpdate deltaTime hr ih =>
    obtain ⟨ih1, ih2⟩ := ih
    obtain ⟨u1, u2, u3, u4, u5, -, -, -⟩ := LanderUpdate_fields _ deltaTime
    constructor
    · intro hf
      rw [u1, u2] at hf
      rw [u3, u4, u5]
      exact ih1 hf
    · intro hm
      rw [u5]
      exact ih2 hm
  | physUpdate2D p hp tr t deltaTime hr ih =>
    exact Update2D_inv p tr t _ deltaTime hp ih
  | physUpdate3D p hp tr t deltaTime hr ih =>
    exact Update3D_inv p tr t _ deltaTime ih

/-- Claim C2: in every session-reachable lander state with the landed
or crashed flag set, all velocity components are exactly zero; in any
such state a further `Physics::Update` call returns the state entirely
unchanged (no gravity, thrust, drag or position integration), so the
velocity stays zero; and `Lander::Reset` clears both flags. -/
theorem claim2_velocity_frozen :
    (∀ (mode : Bool) (l : Lander), LanderReachable mode l →
      (l.landed = true ∨ l.crashed = true) →
      l.vx = 0 ∧ l.vy = 0 ∧ l.vz = 0) ∧
    (∀ (p : Physics) (tr : Trig) (t : Terrain) (l : Lander) (dt : ℚ),
      (l.landed = true ∨ l.crashed = true) → p.Update tr t l dt = l) ∧
    (∀ l : Lander, l.Reset.landed = false ∧ l.Reset.crashed = false) := by
  refine ⟨?_, ?_, ?_⟩
  · intro mode l hr hf
    exact (reachable_inv mode l hr).1 hf
  · intro p tr t l dt hf
    exact PhysicsUpdate_frozen p tr t l dt hf
  · intro l
    constructor <;> simp [Lander.Reset, Lander.SetPosition, Lander.SetRotation]

/-- Closed-form instance of `claim2_velocity_frozen` at concrete
states: a lander landed on `padTerrain` by an actual 2D physics step,
and a lander with the landed flag set fed to `Physics::Update`. -/
theorem claim2_velocity_frozen_witness :
    (LanderReachable false padLander ∧
      (padLander.landed = true ∨ padLander.crashed = true) ∧
      (padLander.vx = 0 ∧ padLander.vy = 0 ∧ padLander.vz = 0)) ∧
    ((landedLander.landed = true ∨ landedLander.crashed = true) ∧
      Physics.Update {} trig0 padTerrain landedLander 1 = landedLander) ∧
    (landedLander.Reset.landed = false ∧ landedLander.Reset.crashed = false) :=
  ⟨⟨LanderReachable.physUpdate2D {} rfl trig0 padTerrain 0
      (LanderReachable.init false),
    by decide,
    claim2_velocity_frozen.1 false padLander
      (LanderReachable.physUpdate2D {} rfl trig0 padTerrain 0
        (LanderReachable.init false))
      (by decide)⟩,
   ⟨by decide,
    claim2_velocity_frozen.2.1 {} trig0 padTerrain landedLander 1 (by decide)⟩,
   claim2_velocity_frozen.2.2 landedLander⟩

/-- Claim C9: for every input amount (including values below 0 or above
1), `Lander::ApplyThrust` stores a thrust level clamped into [0,1] and
never rejects the call; the resulting thrust-active flag is true iff
the clamped level is positive and fuel is positive. -/
theorem claim9_applyThrust_clamped (l : Lander) (amount : ℚ) :
    0 ≤ (l.ApplyThrust amount).thrustLevel ∧
    (l.ApplyThrust amount).thrustLevel ≤ 1 ∧
    ((l.ApplyThrust amount).thrustActive = true ↔
      0 < max 0 (min 1 amount) ∧ 0 < l.fuel) := by
  unfold Lander.ApplyThrust
  split_ifs with h
  · refine ⟨le_refl 0, by norm_num, ?_⟩
    constructor
    · intro hFalse
      exact absurd hFalse (by simp)
    · rintro ⟨-, hpos⟩
      exact absurd hpos (by linarith)
  · refine ⟨le_max_left _ _, max_le (by norm_num) (min_le_left _ _), ?_⟩
    simp only [decide_eq_true_eq]
    constructor
    · intro hlvl
      exact ⟨hlvl, by linarith⟩
    · rintro ⟨hlvl, -⟩
      exact hlvl

/-- Claim C3: for non-negative deltaTime (with the consumption rate and
thrust level non-negative, as they are in every session),
`Lander::Update` never increases fuel; while thrust is active with
positive fuel, the fuel becomes exactly
`max 0 (fuel - consumptionRate * thrustLevel * deltaTime)` (clamped at
0, never negative); when the fuel reaches 0 in the update the
thrust-active flag is forced off; and `Lander::ApplyThrust` refuses to
activate thrust while fuel is 0. -/
theorem claim3_fuel_depletion (l : Lander) (dt : ℚ) (hdt : 0 ≤ dt)
    (hrate : 0 ≤ l.fuelConsumptionRate) (hlvl : 0 ≤ l.thrustLevel) :
    ((l.Update dt).fuel ≤ l.fuel) ∧
    (0 ≤ l.fuel → 0 ≤ (l.Update dt).fuel) ∧
    (l.thrustActive = true → 0 < l.fuel →
      (l.Update dt).fuel =
        max 0 (l.fuel - l.fuelConsumptionRate * l.thrustLevel * dt)) ∧
    (l.thrustActive = true → 0 < l.fuel → (l.Update dt).fuel = 0 →
      (l.Update dt).thrustActive = false) ∧
    (∀ a : ℚ, l.fuel = 0 → (l.ApplyThrust a).thrustActive = false) := by
  have hc : 0 ≤ l.fuelConsumptionRate * l.thrustLevel * dt :=
    mul_nonneg (mul_nonneg hrate hlvl) hdt
  simp only [Lander.Update]
  split_ifs with h1 h2
  · refine ⟨?_, ?_, ?_, ?_, ?_⟩
    · simp only []
      exact max_le (le_of_lt h1.2) (by linarith)
    · intro _
      exact le_max_left _ _
    · intro _ _
      rfl
    · intro _ _ _
      rfl
    · intro a hfa
      unfold Lander.ApplyThrust
      simp [hfa]
  · refine ⟨?_, ?_, ?_, ?_, ?_⟩
    · simp only []
      exact max_le (le_of_lt h1.2) (by linarith)
    · intro _
      exact le_max_left _ _
    · intro _ _
      rfl
    · intro _ _ hf0
      exact absurd hf0 (by simp only []; intro hzero; exact h2 (le_of_eq hzero))
    · intro a hfa
      unfold Lander.ApplyThrust
      simp [hfa]
  · refine ⟨le_refl _, fun h => h, ?_, ?_, ?_⟩
    · intro hA hpos
      exact absurd ⟨hA, hpos⟩ h1
    · intro hA hpos
      exact absurd ⟨hA, hpos⟩ h1
    · intro a hfa
      unfold Lander.ApplyThrust
      simp [hfa]

/-- Claim C7: for every timeScale and deltaTime, `Physics::Update2D`
feeds the time-scaled deltaTime to the gravity/thrust/drag force
applications but the unscaled deltaTime to the position-integration
step, while `Physics::Update3D` feeds the unscaled deltaTime to both
and is entirely independent of the timeScale parameter. -/
theorem claim7_timeScale_divergence (p : Physics) (tr : Trig) (t : Terrain)
    (l : Lander) (dt : ℚ) :
    p.Update2D tr t l dt = p.stagedStep2D tr t l (dt * p.timeScale) dt ∧
    p.Update3D tr t l dt = p.stagedStep3D tr t l dt dt ∧
    (∀ s : ℚ,
      Physics.Update3D { p with timeScale := s } tr t l dt =
        p.Update3D tr t l dt) := by
  refine ⟨?_, ?_, fun s => ?_⟩
  · simp only [Physics.Update2D, Physics.stagedStep2D]
  · simp only [Physics.Update3D, Physics.stagedStep3D]
  · simp only [Physics.Update3D, Physics.ApplyGravity, Physics.ApplyThrust,
      Physics.ApplyDrag, Physics.CheckCollisions3D]

/-- Claim C8: when a collision is reported at height h in a step of a
flying lander, the vertical position is snapped to h minus half the
lander height, while the horizontal components are left unchanged (x
in 2D; x and z in 3D). -/
theorem claim8_collision_snap (t : Terrain) (l : Lander) (h : ℚ)
    (hl : l.landed = false) (hc : l.crashed = false) :
    (t.checkCollision2D l = some h →
      (Physics.CheckCollisions2D t l).1.py = h - l.height / 2 ∧
      (Physics.CheckCollisions2D t l).1.px = l.px) ∧
    (t.checkCollision3D l = some h →
      (Physics.CheckCollisions3D t l).1.py = h - l.height / 2 ∧
      (Physics.CheckCollisions3D t l).1.px = l.px ∧
      (Physics.CheckCollisions3D t l).1.pz = l.pz) := by
  constructor
  · intro hcol
    unfold Physics.CheckCollisions2D
    simp only [hl, hc, Bool.or_false, Bool.false_eq_true, if_false, hcol]
    split_ifs <;> simp [Lander.SetPosition2, Lander.SetPosition]
  · intro hcol
    unfold Physics.CheckCollisions3D
    simp only [hl, hc, Bool.or_false, Bool.false_eq_true, if_false, hcol]
    split_ifs <;> simp [Lander.SetPosition]

/-- Closed-form instance of `claim8_collision_snap` at a concrete
terrain and lander. -/
theorem claim8_collision_snap_witness :
    (Lander.init.landed = false ∧ Lander.init.crashed = false) ∧
    ((rockTerrain.checkCollision2D Lander.init = some 0 →
      (Physics.CheckCollisions2D rockTerrain Lander.init).1.py =
        0 - Lander.init.height / 2 ∧
      (Physics.CheckCollisions2D rockTerrain Lander.init).1.px =
        Lander.init.px) ∧
    (rockTerrain.checkCollision3D Lander.init = some 0 →
      (Physics.CheckCollisions3D rockTerrain Lander.init).1.py =
        0 - Lander.init.height / 2 ∧
      (Physics.CheckCollisions3D rockTerrain Lander.init).1.px =
        Lander.init.px ∧
      (Physics.CheckCollisions3D rockTerrain Lander.init).1.pz =
        Lander.init.pz)) :=
  ⟨⟨rfl, rfl⟩, claim8_collision_snap rockTerrain Lander.init 0 rfl rfl⟩

/-- Claim C1: for a lander that is neither landed nor crashed,
`Physics::CheckCollisions2D/3D` set the landed flag iff the terrain
reports a collision and `IsValidLanding` (evaluated on the snapped
lander) is true, set the crashed flag iff the terrain reports a
collision and `IsValidLanding` is false, leave the state entirely
unchanged when no collision is reported, and never set both flags. -/
theorem claim1_landing_state_machine (t : Terrain) (l : Lander)
    (hl : l.landed = false) (hc : l.crashed = false) :
    (t.checkCollision2D l = none →
      Physics.CheckCollisions2D t l = (l, false)) ∧
    (∀ h : ℚ, t.checkCollision2D l = some h →
      (Physics.CheckCollisions2D t l).1.landed =
        t.isValidLanding2D (l.SetPosition2 l.px (h - l.height / 2)) ∧
      (Physics.CheckCollisions2D t l).1.crashed =
        !t.isValidLanding2D (l.SetPosition2 l.px (h - l.height / 2)) ∧
      (Physics.CheckCollisions2D t l).2 = true) ∧
    ¬((Physics.CheckCollisions2D t l).1.landed = true ∧
      (Physics.CheckCollisions2D t l).1.crashed = true) ∧
    (t.checkCollision3D l = none →
      Physics.CheckCollisions3D t l = (l, false)) ∧
    (∀ h : ℚ, t.checkCollision3D l = some h →
      (Physics.CheckCollisions3D t l).1.landed =
        t.isValidLanding3D (l.SetPosition l.px (h - l.height / 2) l.pz) ∧
      (Physics.CheckCollisions3D t l).1.crashed =
        !t.isValidLanding3D (l.SetPosition l.px (h - l.height / 2) l.pz) ∧
      (Physics.CheckCollisions3D t l).2 = true) ∧
    ¬((Physics.CheckCollisions3D t l).1.landed = true ∧
      (Physics.CheckCollisions3D t l).1.crashed = true) := by
  refine ⟨?_, ?_, ?_, ?_, ?_, ?_⟩
  · intro hcol
    unfold Physics.CheckCollisions2D
    simp [hl, hc, hcol]
  · intro h hcol
    unfold Physics.CheckCollisions2D
    simp only [hl, hc, Bool.or_false, Bool.false_eq_true, if_false, hcol]
    split_ifs with hv <;> simp_all [Lander.SetPosition2, Lander.SetPosition]
  · unfold Physics.CheckCollisions2D
    simp only [hl, hc, Bool.or_false, Bool.false_eq_true, if_false]
    rcases hcol : t.checkCollision2D l with - | h
    · simp [hl]
    · dsimp only
      split_ifs <;> simp [Lander.SetPosition2, Lander.SetPosition, hl, hc]
  · intro hcol
    unfold Physics.CheckCollisions3D
    simp [hl, hc, hcol]
  · intro h hcol
    unfold Physics.CheckCollisions3D
    simp only [hl, hc, Bool.or_false, Bool.false_eq_true, if_false, hcol]
    split_ifs with hv <;> simp_all [Lander.SetPosition]
  · unfold Physics.CheckCollisions3D
    simp only [hl, hc, Bool.or_false, Bool.false_eq_true, if_false]
    rcases hcol : t.checkCollision3D l with - | h
    · simp [hl]
    · dsimp only
      split_ifs <;> simp [Lander.SetPosition, hl, hc]

/-- Closed-form instance of `claim1_landing_state_machine` at a
concrete terrain and lander. -/
theorem claim1_landing_state_machine_witness :
    (Lander.init.landed = false ∧ Lander.init.crashed = false) ∧
    ((padTerrain.checkCollision2D Lander.init = none →
      Physics.CheckCollisions2D padTerrain Lander.init = (Lander.init, false)) ∧
    (∀ h : ℚ, padTerrain.checkCollision2D Lander.init = some h →
      (Physics.CheckCollisions2D padTerrain Lander.init).1.landed =
        padTerrain.isValidLanding2D
          (Lander.init.SetPosition2 Lander.init.px (h - Lander.init.height / 2)) ∧
      (Physics.CheckCollisions2D padTerrain Lander.init).1.crashed =
        !padTerrain.isValidLanding2D
          (Lander.init.SetPosition2 Lander.init.px (h - Lander.init.height / 2)) ∧
      (Physics.CheckCollisions2D padTerrain Lander.init).2 = true) ∧
    ¬((Physics.CheckCollisions2D padTerrain Lander.init).1.landed = true ∧
      (Physics.CheckCollisions2D padTerrain Lander.init).1.crashed = true) ∧
    (padTerrain.checkCollision3D Lander.init = none →
      Physics.CheckCollisions3D padTerrain Lander.init = (Lander.init, false)) ∧
    (∀ h : ℚ, padTerrain.checkCollision3D Lander.init = some h →
      (Physics.CheckCollisions3D padTerrain Lander.init).1.landed =
        padTerrain.isValidLanding3D
          (Lander.init.SetPosition Lander.init.px (h - Lander.init.height / 2)
            Lander.init.pz) ∧
      (Physics.CheckCollisions3D padTerrain Lander.init).1.crashed =
        !padTerrain.isValidLanding3D
          (Lander.init.SetPosition Lander.init.px (h - Lander.init.height / 2)
            Lander.init.pz) ∧
      (Physics.CheckCollisions3D padTerrain Lander.init).2 = true) ∧
    ¬((Physics.CheckCollisions3D padTerrain Lander.init).1.landed = true ∧
      (Physics.CheckCollisions3D padTerrain Lander.init).1.crashed = true)) :=
  ⟨⟨rfl, rfl⟩, claim1_landing_state_machine padTerrain Lander.init rfl rfl⟩

/-- Closed-form instance of `claim3_fuel_depletion` at a concrete
lander and time step. -/
theorem claim3_fuel_depletion_witness :
    ((0:ℚ) ≤ 1 ∧ 0 ≤ Lander.init.fuelConsumptionRate ∧
      0 ≤ Lander.init.thrustLevel) ∧
    ((Lander.init.Update 1).fuel ≤ Lander.init.fuel ∧
      (0 ≤ Lander.init.fuel → 0 ≤ (Lander.init.Update 1).fuel) ∧
      (Lander.init.thrustActive = true → 0 < Lander.init.fuel →
        (Lander.init.Update 1).fuel =
          max 0 (Lander.init.fuel -
            Lander.init.fuelConsumptionRate * Lander.init.thrustLevel * 1)) ∧
      (Lander.init.thrustActive = true → 0 < Lander.init.fuel →
        (Lander.init.Update 1).fuel = 0 →
        (Lander.init.Update 1).thrustActive = false) ∧
      (∀ a : ℚ, Lander.init.fuel = 0 →
        (Lander.init.ApplyThrust a).thrustActive = false)) :=
  ⟨⟨by decide, by decide, by decide⟩,
    claim3_fuel_depletion Lander.init 1 (by decide) (by decide) (by decide)⟩

/-- Claim C4: in a FLYING frame on the 2D physics path in which no
collision occurs (the flags stay clear through the step), one
`Game::Update` call advances the lander position by velocity ×
deltaTime twice — once in `Physics::Update`'s Euler integration and
once more in `Lander::Update` — so the net frame displacement is
2 × velocity × deltaTime (the frame's post-force velocity, which is
also the velocity the frame ends with). -/
theorem claim4_double_integration (g : Game) (tr : Trig) (t : Terrain) (dt : ℚ)
    (hs : g.gameState = .FLYING) (hp : g.physics.threeDMode = false)
    (hl : g.lander.landed = false) (hc : g.lander.crashed = false)
    (hl' : (g.Update tr t dt).lander.landed = false)
    (hc' : (g.Update tr t dt).lander.crashed = false) :
    (g.Update tr t dt).lander.px =
      g.lander.px + 2 * (g.Update tr t dt).lander.vx * dt ∧
    (g.Update tr t dt).lander.py =
      g.lander.py + 2 * (g.Update tr t dt).lander.vy * dt := by
  have hLander := GameUpdate_lander g tr t dt hs
  have hDisp : g.physics.Update tr t g.lander dt =
      g.physics.Update2D tr t g.lander dt := by
    unfold Physics.Update
    simp [hp]
  rw [hLander, hDisp] at hl' hc' ⊢
  simp only [Physics.Update2D] at hl' hc' ⊢
  set sdt := dt * g.physics.timeScale with hsdt
  set q1 := g.physics.ApplyGravity g.lander sdt with hq1
  set q2 := g.physics.ApplyThrust tr q1 sdt with hq2
  set q3 := g.physics.ApplyDrag q2 sdt with hq3
  obtain ⟨g1, g2, g3, g4, g5, g6, g7⟩ := ApplyGravity_fields g.physics g.lander sdt
  obtain ⟨t1, t2, t3, t4, t5⟩ := physApplyThrust_fields g.physics tr q1 sdt
  obtain ⟨d1, d2, d3, d4, d5⟩ := ApplyDrag_fields g.physics q2 sdt
  have f1 : q3.landed = false := by
    rw [hq3, d1, hq2, t1, hq1, g1, hl]
  have f2 : q3.crashed = false := by
    rw [hq3, d2, hq2, t2, hq1, g2, hc]
  have fpx : q3.px = g.lander.px := by
    rw [hq3, d3, hq2, t3, hq1, g5]
  have fpy : q3.py = g.lander.py := by
    rw [hq3, d4, hq2, t4, hq1, g6]
  simp only [f1, f2, Bool.not_false, Bool.and_self, if_true] at hl' hc' ⊢
  set li := q3.SetPosition2 (q3.px + q3.vx * dt) (q3.py + q3.vy * dt) with hli
  have lil : li.landed = false := by
    rw [hli]
    simp [Lander.SetPosition2, Lander.SetPosition, f1]
  have lic : li.crashed = false := by
    rw [hli]
    simp [Lander.SetPosition2, Lander.SetPosition, f2]
  rcases hcol : t.checkCollision2D li with - | ch
  · simp only [CheckCollisions2D_none t li lil lic hcol] at hl' hc' ⊢
    obtain ⟨-, -, u3, u4, -, u6, u7, -⟩ := LanderUpdate_fields li dt
    rw [u6, u7, u3, u4]
    have lipx : li.px = q3.px + q3.vx * dt := by
      rw [hli]
      simp [Lander.SetPosition2, Lander.SetPosition]
    have lipy : li.py = q3.py + q3.vy * dt := by
      rw [hli]
      simp [Lander.SetPosition2, Lander.SetPosition]
    have livx : li.vx = q3.vx := by
      rw [hli]
      simp [Lander.SetPosition2, Lander.SetPosition]
    have livy : li.vy = q3.vy := by
      rw [hli]
      simp [Lander.SetPosition2, Lander.SetPosition]
    rw [lipx, lipy, livx, livy, fpx, fpy]
    constructor <;> ring
  · rw [CheckCollisions2D_some t li ch lil lic hcol] at hl' hc'
    split_ifs at hl' hc' with hv
    · rw [(LanderUpdate_fields _ dt).1] at hl'
      simp at hl'
    · rw [(LanderUpdate_fields _ dt).2.1] at hc'
      simp at hc'

/-- Closed-form instance of `claim4_double_integration` over a terrain
that reports no collision: gravity accelerates the lander for one
1-second frame, and the frame moves it by twice the frame velocity. -/
theorem claim4_double_integration_witness :
    (gameFly.gameState = .FLYING ∧ gameFly.physics.threeDMode = false ∧
      gameFly.lander.landed = false ∧ gameFly.lander.crashed = false ∧
      (gameFly.Update trig0 skyTerrain 1).lander.landed = false ∧
      (gameFly.Update trig0 skyTerrain 1).lander.crashed = false) ∧
    ((gameFly.Update trig0 skyTerrain 1).lander.px =
      gameFly.lander.px + 2 * (gameFly.Update trig0 skyTerrain 1).lander.vx * 1 ∧
    (gameFly.Update trig0 skyTerrain 1).lander.py =
      gameFly.lander.py + 2 * (gameFly.Update trig0 skyTerrain 1).lander.vy * 1) :=
  ⟨⟨by decide, by decide, by decide, by decide, by decide, by decide⟩,
   claim4_double_integration gameFly trig0 skyTerrain 1
     (by decide) (by decide) (by decide) (by decide) (by decide) (by decide)⟩

/-- Claim C5: when `Game::Update` (in the FLYING state, where it
inspects the flags) observes the landed flag on the updated lander, it
assigns score = (remaining fuel / max fuel) × 1000 and moves the game
state to LANDED; when it observes the crashed flag (checked in the
else-branch, so with the landed flag clear), it assigns score = 0 and
moves the game state to CRASHED. -/
theorem claim5_scoring (g : Game) (tr : Trig) (t : Terrain) (dt : ℚ)
    (hs : g.gameState = .FLYING) :
    (((g.physics.Update tr t g.lander dt).Update dt).landed = true →
      (g.Update tr t dt).score =
        ((g.physics.Update tr t g.lander dt).Update dt).fuel /
          ((g.physics.Update tr t g.lander dt).Update dt).maxFuel * 1000 ∧
      (g.Update tr t dt).gameState = .LANDED) ∧
    (((g.physics.Update tr t g.lander dt).Update dt).landed = false →
      ((g.physics.Update tr t g.lander dt).Update dt).crashed = true →
      (g.Update tr t dt).score = 0 ∧
      (g.Update tr t dt).gameState = .CRASHED) := by
  unfold Game.Update
  simp only [hs, if_true]
  constructor
  · intro hland
    simp [hland]
  · intro hland hcrash
    simp [hland, hcrash]

/-- Closed-form instance of `claim5_scoring`: over `padTerrain` the
first frame lands (score 1000 from full fuel), over `rockTerrain` it
crashes (score 0). -/
theorem claim5_scoring_witness :
    gameFly.gameState = .FLYING ∧
    (((gameFly.physics.Update trig0 padTerrain gameFly.lander 1).Update 1).landed
        = true →
      (gameFly.Update trig0 padTerrain 1).score =
        ((gameFly.physics.Update trig0 padTerrain gameFly.lander 1).Update 1).fuel /
          ((gameFly.physics.Update trig0 padTerrain gameFly.lander 1).Update 1).maxFuel
          * 1000 ∧
      (gameFly.Update trig0 padTerrain 1).gameState = .LANDED) ∧
    (((gameFly.physics.Update trig0 rockTerrain gameFly.lander 1).Update 1).landed
        = false →
      ((gameFly.physics.Update trig0 rockTerrain gameFly.lander 1).Update 1).crashed
        = true →
      (gameFly.Update trig0 rockTerrain 1).score = 0 ∧
      (gameFly.Update trig0 rockTerrain 1).gameState = .CRASHED) :=
  ⟨by decide,
   (claim5_scoring gameFly trig0 padTerrain 1 (by decide)).1,
   (claim5_scoring gameFly trig0 rockTerrain 1 (by decide)).2⟩

/-- Claim C6: after `Game::Reset()` (2D mode, the documented 800-wide
window, the documented 1000 max fuel) the game state is FLYING (READY
is skipped), score, elapsed time and fuel-used are 0, and the lander's
position, rotation, velocity, fuel, thrust and flags equal the fixed
documented initial values — independent of the prior state, so the
resulting state shape is idempotent under Reset. -/
theorem claim6_reset_state_shape (g : Game)
    (hm : g.threeDMode = false) (hw : g.windowWidth = 800)
    (hfuel : g.lander.maxFuel = 1000) :
    g.Reset.gameState = .FLYING ∧
    g.Reset.score = 0 ∧ g.Reset.elapsedTime = 0 ∧ g.Reset.fuelUsed = 0 ∧
    g.Reset.lander.px = 400 ∧ g.Reset.lander.py = 100 ∧
    g.Reset.lander.pz = 0 ∧
    g.Reset.lander.rx = 0 ∧ g.Reset.lander.ry = 0 ∧ g.Reset.lander.rz = 0 ∧
    g.Reset.lander.vx = 0 ∧ g.Reset.lander.vy = 0 ∧ g.Reset.lander.vz = 0 ∧
    g.Reset.lander.fuel = 1000 ∧
    g.Reset.lander.thrustLevel = 0 ∧ g.Reset.lander.thrustActive = false ∧
    g.Reset.lander.landed = false ∧ g.Reset.lander.crashed = false := by
  unfold Game.Reset
  simp [hm, hw, hfuel, Lander.Reset, Lander.SetPosition2, Lander.SetPosition,
    Lander.SetRotation, Lander.SetActive]
  norm_num

/-- Closed-form instance of `claim6_reset_state_shape` at a prior state
with junk values in every resettable field. -/
theorem claim6_reset_state_shape_witness :
    (messyGame.threeDMode = false ∧ messyGame.windowWidth = 800 ∧
      messyGame.lander.maxFuel = 1000) ∧
    (messyGame.Reset.gameState = .FLYING ∧
    messyGame.Reset.score = 0 ∧ messyGame.Reset.elapsedTime = 0 ∧
    messyGame.Reset.fuelUsed = 0 ∧
    messyGame.Reset.lander.px = 400 ∧ messyGame.Reset.lander.py = 100 ∧
    messyGame.Reset.lander.pz = 0 ∧
    messyGame.Reset.lander.rx = 0 ∧ messyGame.Reset.lander.ry = 0 ∧
    messyGame.Reset.lander.rz = 0 ∧
    messyGame.Reset.lander.vx = 0 ∧ messyGame.Reset.lander.vy = 0 ∧
    messyGame.Reset.lander.vz = 0 ∧
    messyGame.Reset.lander.fuel = 1000 ∧
    messyGame.Reset.lander.thrustLevel = 0 ∧
    messyGame.Reset.lander.thrustActive = false ∧
    messyGame.Reset.lander.landed = false ∧
    messyGame.Reset.lander.crashed = false) :=
  ⟨⟨by decide, by decide, by decide⟩,
   claim6_reset_state_shape messyGame (by decide) (by decide) (by decide)⟩

/-- Claim C10: the cumulative fuel-used counter is exactly 0 in every
session-reachable game state — the fuel-usage tracking in
`Game::ProcessInput` compares the fuel reading with itself so its
increment never fires, `Reset()` re-zeroes the counter, and no other
code writes it. -/
theorem claim10_fuelUsed_always_zero (g : Game) (hr : GameReachable g) :
    g.fuelUsed = 0 := by
  induction hr with
  | init =>
    rfl
  | processInput inp hr ih =>
    unfold Game.ProcessInput Game.handleThrustInput
    split_ifs <;> simp_all [Game.Reset]
  | update tr t dt hr ih =>
    unfold Game.Update
    dsimp only
    split_ifs <;> simp_all
  | reset hr ih =>
    simp [Game.Reset]
  | setDifficulty grav hr ih =>
    simp [Game.SetDifficulty, Game.Reset]

/-- Closed-form instance of `claim10_fuelUsed_always_zero` at a
concrete reachable state: one thrust-key input frame followed by one
physics frame after initialisation. -/
theorem claim10_fuelUsed_always_zero_witness :
    GameReachable
      ((gameFly.ProcessInput { thrust := true }).Update trig0 skyTerrain 1) ∧
    ((gameFly.ProcessInput { thrust := true }).Update trig0 skyTerrain 1).fuelUsed
      = 0 :=
  ⟨GameReachable.update trig0 skyTerrain 1
    (GameReachable.processInput { thrust := true } GameReachable.init),
   claim10_fuelUsed_always_zero _
    (GameReachable.update trig0 skyTerrain 1
      (GameReachable.processInput { thrust := true } GameReachable.init))⟩

end LunarLander
